import Mathlib

/-
Verification of the Revenue Aggregation and Disclosure Core.

The development shallowly embeds the aggregation views of the backend
(app_revenue_details, app_revenue_trends, app_revenue_trends_by_locations,
app_revenue_realtime) and proves or refutes the frozen claims about them.

Conventions of the embedding:
* Python `datetime.date` values become the `Date` structure below; date
  comparison is the lexicographic order on (year, month, day), exactly the
  order Python uses on `date` objects.
* Python `datetime.datetime` values become `Instant` (a date plus a
  time-of-day counter), ordered lexicographically.
* Monetary `Decimal` values in the source hold integer amounts; components
  are embedded as `Int` (subtraction of the problem-ticket component can in
  principle go below zero, so `Nat` would be wrong).
* Django querysets that group with `.values(...).annotate(Sum(...))` are
  embedded as lists of pre-grouped rows: one list element per group row the
  query would return, with the summed components as fields.  A group row
  exists exactly when at least one underlying table row exists for the key,
  which is how Django behaves.
* `timezone.now()` is passed in as an explicit `Date` (or read off an
  `Instant`) parameter named for the clock value the view would observe.
* A view body that raises an exception caught by the surrounding
  `except Exception` handler (returned as a status-500 response) is embedded
  as `ViewResponse.error`; a 404 "no data" response is `ViewResponse.noData`;
  a normal payload is `ViewResponse.ok`.
-/

/-- Calendar date: the embedding of `datetime.date`. -/
structure Date where
  year : Int
  month : Nat
  day : Nat
deriving DecidableEq

/-- Lexicographic strict order on dates, the order Python uses for `date`. -/
abbrev Date.lt (a b : Date) : Prop :=
  a.year < b.year ∨ (a.year = b.year ∧ (a.month < b.month ∨ (a.month = b.month ∧ a.day < b.day)))

/-- Lexicographic order on dates; `Date.le a b` embeds `a <= b` on `date`. -/
abbrev Date.le (a b : Date) : Prop :=
  Date.lt a b ∨ a = b

/-- Gregorian leap-year test, as the `calendar` module defines it. -/
def isLeapYear (y : Int) : Bool :=
  y % 4 == 0 && (y % 100 != 0 || y % 400 == 0)

/-- Number of days of month `m` of year `y` (`calendar.monthrange(y, m)[1]`). -/
def daysInMonth (y : Int) (m : Nat) : Nat :=
  if m = 2 then (if isLeapYear y then 29 else 28)
  else if m = 4 ∨ m = 6 ∨ m = 9 ∨ m = 11 then 30
  else 31

/-- A date that `datetime.date` can actually represent. -/
abbrev ValidDate (d : Date) : Prop :=
  1 ≤ d.month ∧ d.month ≤ 12 ∧ 1 ≤ d.day ∧ d.day ≤ daysInMonth d.year d.month

/-- Successor date (one `timedelta(days=1)` step forward). -/
def Date.nextDay (d : Date) : Date :=
  if d.day < daysInMonth d.year d.month then ⟨d.year, d.month, d.day + 1⟩
  else if d.month < 12 then ⟨d.year, d.month + 1, 1⟩
  else ⟨d.year + 1, 1, 1⟩

/-- Predecessor date (one `timedelta(days=1)` step backward). -/
def Date.prevDay (d : Date) : Date :=
  if 1 < d.day then ⟨d.year, d.month, d.day - 1⟩
  else if 1 < d.month then ⟨d.year, d.month - 1, daysInMonth d.year (d.month - 1)⟩
  else ⟨d.year - 1, 12, 31⟩

/-- Date plus `n` days: the embedding of `d + timedelta(days=n)`. -/
def Date.addDays (d : Date) : Nat → Date
  | 0 => d
  | n + 1 => (d.nextDay).addDays n

/-- Date minus `n` days: the embedding of `d - timedelta(days=n)`. -/
def Date.subDays (d : Date) : Nat → Date
  | 0 => d
  | n + 1 => (d.prevDay).subDays n

/-- The embedding of `d.replace(day=k)`. -/
def Date.replaceDay (d : Date) (k : Nat) : Date :=
  ⟨d.year, d.month, k⟩

/-- Timestamp: the embedding of `datetime.datetime`, a date with a
time-of-day counter. -/
structure Instant where
  date : Date
  tod : Nat
deriving DecidableEq

/-- Lexicographic strict order on instants. -/
abbrev Instant.lt (a b : Instant) : Prop :=
  Date.lt a.date b.date ∨ (a.date = b.date ∧ a.tod < b.tod)

/-- Lexicographic order on instants; embeds `<=` on `datetime`. -/
abbrev Instant.le (a b : Instant) : Prop :=
  Instant.lt a b ∨ a = b

/-- Result of a view body: a normal payload, a 404 "no data" response, or an
exception caught by the surrounding handler and returned as a 500 error. -/
inductive ViewResponse (α : Type) where
  | ok : α → ViewResponse α
  | noData : String → ViewResponse α
  | error : String → ViewResponse α
deriving DecidableEq

/-- True exactly on the `error` (caught-exception, status 500) case. -/
def ViewResponse.isError {α : Type} : ViewResponse α → Bool
  | ViewResponse.error _ => true
  | _ => false

/-- Sum of `f` over the rows of `rows` satisfying `p`: the embedding of a
Django `filter(...).aggregate(Sum(f))` with the `or 0` default on `None`. -/
def sumOn {α : Type} (rows : List α) (p : α → Bool) (f : α → Int) : Int :=
  ((rows.filter p).map f).sum

/-- A grouped row of the `IncomeParkir` query results: one row per
(site, date) group with the summed components. -/
structure ParkirRow where
  lokasi : String
  tanggal : Date
  cash : Int
  prepaid : Int
  casual : Int
  pass_field : Int
deriving DecidableEq

/-- A grouped row of the `IncomeMember` query results. -/
structure MemberRow where
  lokasi : String
  tanggal : Date
  member : Int
deriving DecidableEq

/-- A grouped row of the `IncomeManual` query results. -/
structure ManualRow where
  lokasi : String
  tanggal : Date
  manual : Int
  masalah : Int
deriving DecidableEq

/-- A row of the `RevenueRealtime` table. -/
structure RTRow where
  lokasi : String
  tanggal : Date
  waktu : Instant
  kendaraan : String
  qty : Int
  jumlah : Int
deriving DecidableEq

/-- Spec-side Disclosure Policy cutoff (spec sections 4.1 and 8): the 6th
calendar day of the month following the target month, December rolling into
January of the next year.  The policy holds when `now` is on or after this
date. -/
def disclosureCutoffSpec (target : Date) : Date :=
  if target.month = 12 then ⟨target.year + 1, 1, 6⟩ else ⟨target.year, target.month + 1, 6⟩

/-- Day-5 analogue of the spec cutoff, used to characterise the deviating
predicate of the summary-cards view. -/
def summaryCardsCutoff (target : Date) : Date :=
  if target.month = 12 then ⟨target.year + 1, 1, 5⟩ else ⟨target.year, target.month + 1, 5⟩

namespace RevenueDetailsByDaysView

/-- `should_show_member_data` of `app_revenue_details/views_filter_by_days.py`:
the cutoff is the 6th of the month after the target month (January of the
next year after December); member data is shown when the current date is on
or after the cutoff.  `current_date` embeds `timezone.now().date()`. -/
def should_show_member_data (target_date : Date) (current_date : Date) : Bool :=
  let cutoff_date : Date :=
    if target_date.month = 12 then ⟨target_date.year + 1, 1, 6⟩
    else ⟨target_date.year, target_date.month + 1, 6⟩
  decide (Date.le cutoff_date current_date)

/-- `filter_member_data` of the same view: zero before the cutoff. -/
def filter_member_data (member_data : Int) (target_date : Date) (current_date : Date) : Int :=
  if should_show_member_data target_date current_date then member_data else 0

/-- The `next((m[...] for m in member_data if ...), 0)` lookup of the member
component for a (date, site) pair. -/
def memberLookup (member_data : List MemberRow) (tanggal : Date) (lokasi : String) : Int :=
  ((member_data.find? (fun m => decide (m.tanggal = tanggal) && decide (m.lokasi = lokasi))).map
    MemberRow.member).getD 0

/-- Lookup of the manual component for a (date, site) pair. -/
def manualLookup (manual_data : List ManualRow) (tanggal : Date) (lokasi : String) : Int :=
  ((manual_data.find? (fun man => decide (man.tanggal = tanggal) && decide (man.lokasi = lokasi))).map
    ManualRow.manual).getD 0

/-- Lookup of the problem-ticket component for a (date, site) pair. -/
def masalahLookup (manual_data : List ManualRow) (tanggal : Date) (lokasi : String) : Int :=
  ((manual_data.find? (fun man => decide (man.tanggal = tanggal) && decide (man.lokasi = lokasi))).map
    ManualRow.masalah).getD 0

/-- One record of the per-day response payload of `view_by_locations`. -/
structure DayRecord where
  tanggal : Date
  tarif_tunai : Int
  tarif_non_tunai : Int
  member : Int
  manual : Int
  tiket_masalah : Int
  total_pendapatan : Int
  qty_casual : Int
  qty_pass : Int
  total_qty : Int
deriving DecidableEq

/-- The record built for one grouped parkir row in the processing loop of
`view_by_locations` (views_filter_by_days.py, the body of
`for parkir in parkir_data`). -/
def dayRecordOf (current_date : Date) (member_data : List MemberRow)
    (manual_data : List ManualRow) (parkir : ParkirRow) : DayRecord :=
  let lokasi := parkir.lokasi
  let tanggal := parkir.tanggal
  let cash := parkir.cash
  let prepaid := parkir.prepaid
  let casual := parkir.casual
  let pass_amount := parkir.pass_field
  let raw_member := memberLookup member_data tanggal lokasi
  let member := filter_member_data raw_member tanggal current_date
  let manual := manualLookup manual_data tanggal lokasi
  let masalah := masalahLookup manual_data tanggal lokasi
  let total_qty := casual + pass_amount
  let total_pendapatan := cash + prepaid + manual + member - masalah
  ⟨tanggal, cash, prepaid, member, manual, masalah, total_pendapatan, casual, pass_amount, total_qty⟩

/-- The full list of records produced by the processing loop of
`view_by_locations`, tagged with the site each record was appended under
(the `result[lokasi]` dictionary lists, in iteration order).  The loop runs
over the grouped parkir rows only. -/
def view_by_locations_records (current_date : Date) (parkir_data : List ParkirRow)
    (member_data : List MemberRow) (manual_data : List ManualRow) : List (String × DayRecord) :=
  parkir_data.map (fun parkir => (parkir.lokasi, dayRecordOf current_date member_data manual_data parkir))

/-- The record list stored under key `lokasi` of the `result` dictionary. -/
def locRecords (records : List (String × DayRecord)) (lokasi : String) : List DayRecord :=
  (records.filter (fun r => decide (r.1 = lokasi))).map Prod.snd

/-- Per-field statistics block of the statistics loop of
`view_by_locations`: sum, `min(...)`, `max(...)`, and `sum / len(...)`. -/
structure FieldStats where
  total : Int
  minimal : Int
  maksimal : Int
  rerata : Rat
deriving DecidableEq

/-- Statistics for one numeric field over a location series.  On the empty
list the Python `min`, `max` and the division by `len` would all raise, so
the embedding returns `none` there; a `some` result is a normally computed
statistics block. -/
def fieldStats (f : DayRecord → Int) : List DayRecord → Option FieldStats
  | [] => none
  | d :: rest =>
      some { total := ((d :: rest).map f).sum
           , minimal := rest.foldl (fun a r => min a (f r)) (f d)
           , maksimal := rest.foldl (fun a r => max a (f r)) (f d)
           , rerata := (((d :: rest).map f).sum : Rat) / (((d :: rest).length : Int) : Rat) }

end RevenueDetailsByDaysView

namespace RevenueByMonthsView

/-- `should_show_member_data` of `app_revenue_trends/views_filter_by_months.py`;
textually the same rule as the daily-details view. -/
def should_show_member_data (target_date : Date) (current_date : Date) : Bool :=
  let cutoff_date : Date :=
    if target_date.month = 12 then ⟨target_date.year + 1, 1, 6⟩
    else ⟨target_date.year, target_date.month + 1, 6⟩
  decide (Date.le cutoff_date current_date)

/-- `filter_member_data` of the monthly-trends view. -/
def filter_member_data (member_data : Int) (target_date : Date) (current_date : Date) : Int :=
  if should_show_member_data target_date current_date then member_data else 0

/-- A `TruncMonth`-grouped row of the parkir query of `view_all`; `month` is
the first day of the month. -/
structure MonthRow where
  month : Date
  cash : Int
  prepaid : Int
deriving DecidableEq

/-- A `TruncMonth`-grouped row of the member query of `view_all`. -/
structure MonthMemberRow where
  month : Date
  member : Int
deriving DecidableEq

/-- A `TruncMonth`-grouped row of the manual query of `view_all`. -/
structure MonthManualRow where
  month : Date
  manual : Int
  masalah : Int
deriving DecidableEq

/-- One record of the response payload of `view_all`. -/
structure MonthRecord where
  tanggal : Date
  cash : Int
  prepaid : Int
  member : Int
  manual : Int
  masalah : Int
  total : Int
deriving DecidableEq

/-- The month-keyed member lookup `next((item['member'] ...), 0)`. -/
def memberLookupM (member_data : List MonthMemberRow) (date_value : Date) : Int :=
  ((member_data.find? (fun item => decide (item.month = date_value))).map
    MonthMemberRow.member).getD 0

/-- The month-keyed manual lookup. -/
def manualLookupM (manual_data : List MonthManualRow) (date_value : Date) : Int :=
  ((manual_data.find? (fun item => decide (item.month = date_value))).map
    MonthManualRow.manual).getD 0

/-- The month-keyed problem-ticket lookup. -/
def masalahLookupM (manual_data : List MonthManualRow) (date_value : Date) : Int :=
  ((manual_data.find? (fun item => decide (item.month = date_value))).map
    MonthManualRow.masalah).getD 0

/-- The record built for one grouped month row in the loop of `view_all`
(views_filter_by_months.py, the body of `for date in parkir_data`). -/
def monthRecordOf (current_date : Date) (member_data : List MonthMemberRow)
    (manual_data : List MonthManualRow) (date : MonthRow) : MonthRecord :=
  let date_value := date.month
  let cash := date.cash
  let prepaid := date.prepaid
  let raw_member := memberLookupM member_data date_value
  let member := filter_member_data raw_member date_value current_date
  let manual := manualLookupM manual_data date_value
  let masalah := masalahLookupM manual_data date_value
  let total := cash + prepaid + manual + member - masalah
  ⟨date_value, cash, prepaid, member, manual, masalah, total⟩

/-- `IncomeParkir.objects.order_by('-tanggal').first()`, keeping only the
`tanggal` attribute (`None` on an empty store). -/
def latestTanggal (rows : List ParkirRow) : Option Date :=
  rows.foldl (fun acc r =>
    match acc with
    | none => some r.tanggal
    | some d => if decide (Date.lt d r.tanggal) then some r.tanggal else some d) none

/-- `view_all` of the monthly-trends view.  The very first statement reads
`.first().tanggal`; on a store with no parkir rows `first()` is `None`, the
attribute access raises `AttributeError`, and the surrounding handler turns
that into a 500 error response.  Otherwise the grouped month rows (already
restricted to the six-month range by the queries) are composed and the
result truncated to six records. -/
def view_all (current_date : Date) (parkirStore : List ParkirRow) (parkir_data : List MonthRow)
    (member_data : List MonthMemberRow) (manual_data : List MonthManualRow) :
    ViewResponse (List MonthRecord) :=
  match latestTanggal parkirStore with
  | none => ViewResponse.error "AttributeError"
  | some _ => ViewResponse.ok ((parkir_data.map (monthRecordOf current_date member_data manual_data)).take 6)

end RevenueByMonthsView

namespace RevenueDetailsByYearsView

/-- `should_show_member_data` of `app_revenue_details/views_filter_by_years.py`;
textually the same rule as the daily-details view. -/
def should_show_member_data (target_date : Date) (current_date : Date) : Bool :=
  let cutoff_date : Date :=
    if target_date.month = 12 then ⟨target_date.year + 1, 1, 6⟩
    else ⟨target_date.year, target_date.month + 1, 6⟩
  decide (Date.le cutoff_date current_date)

/-- `filter_member_data` of the yearly-details view. -/
def filter_member_data (member_data : Int) (target_date : Date) (current_date : Date) : Int :=
  if should_show_member_data target_date current_date then member_data else 0

/-- A (site, year, month)-grouped row of the parkir query of
`view_by_locations` of the yearly-details view. -/
structure YMParkirRow where
  lokasi : String
  tahun : Int
  bulan : Nat
  cash : Int
  prepaid : Int
  casual : Int
  pass_field : Int
deriving DecidableEq

/-- A (site, year, month)-grouped row of the member query of the same view. -/
structure YMMemberRow where
  lokasi : String
  tahun : Int
  bulan : Nat
  member : Int
deriving DecidableEq

/-- The `next((m['member'] ...), 0)` member lookup keyed by
(year, month, site). -/
def memberLookupYM (member_data : List YMMemberRow) (tahun : Int) (bulan : Nat) (lokasi : String) : Int :=
  ((member_data.find? (fun m =>
      decide (m.tahun = tahun) && decide (m.bulan = bulan) && decide (m.lokasi = lokasi))).map
    YMMemberRow.member).getD 0

/-- The final `member` field of the year entry assembled by
`view_by_locations` for a given site and year.  The loop runs once per
grouped (site, year, month) parkir row and accumulates the
disclosure-filtered member of that month into the year entry with
`year_entry['member'] += member`, so the final field equals this sum over
the matching parkir rows. -/
def year_entry_member (current_date : Date) (parkir_data : List YMParkirRow)
    (member_data : List YMMemberRow) (lokasi : String) (tahun : Int) : Int :=
  ((parkir_data.filter (fun p => decide (p.lokasi = lokasi) && decide (p.tahun = tahun))).map
    (fun p => filter_member_data (memberLookupYM member_data p.tahun p.bulan p.lokasi)
      ⟨p.tahun, p.bulan, 1⟩ current_date)).sum

end RevenueDetailsByYearsView

namespace RevenueByYearsView

/-- `should_show_member_data` of
`app_revenue_trends_by_locations/views_filter_by_years.py`; textually the
same rule as the daily-details view. -/
def should_show_member_data (target_date : Date) (current_date : Date) : Bool :=
  let cutoff_date : Date :=
    if target_date.month = 12 then ⟨target_date.year + 1, 1, 6⟩
    else ⟨target_date.year, target_date.month + 1, 6⟩
  decide (Date.le cutoff_date current_date)

/-- `filter_member_data` of the yearly-trends view. -/
def filter_member_data (member_data : Int) (target_date : Date) (current_date : Date) : Int :=
  if should_show_member_data target_date current_date then member_data else 0

/-- The per-month member aggregate
`IncomeMember.objects.filter(id_lokasi__site=..., tanggal__year=...,
tanggal__month=...).aggregate(Sum('member')) or 0` of `view_all`. -/
def monthMemberSum (memberStore : List MemberRow) (site_name : String)
    (current_year : Int) (month : Nat) : Int :=
  sumOn memberStore
    (fun r => decide (r.lokasi = site_name) && decide (r.tanggal.year = current_year)
      && decide (r.tanggal.month = month))
    MemberRow.member

/-- The `total_member` accumulator of `view_all`
(views_filter_by_years.py of app_revenue_trends_by_locations, lines of the
`for month in range(1, 13)` loop): each month of the year is queried
separately and disclosure-filtered with the first of that month as target
date. -/
def total_member (current_date : Date) (memberStore : List MemberRow)
    (site_name : String) (current_year : Int) : Int :=
  ((List.range 12).map (fun i =>
    filter_member_data (monthMemberSum memberStore site_name current_year (i + 1))
      ⟨current_year, i + 1, 1⟩ current_date)).sum

end RevenueByYearsView

namespace RevenueRealtimeView

/-- `should_show_member_data` of
`app_revenue_realtime/views_revenue_realtime.py`; textually the same rule as
the daily-details view. -/
def should_show_member_data (target_date : Date) (current_date : Date) : Bool :=
  let cutoff_date : Date :=
    if target_date.month = 12 then ⟨target_date.year + 1, 1, 6⟩
    else ⟨target_date.year, target_date.month + 1, 6⟩
  decide (Date.le cutoff_date current_date)

/-- `filter_member_data` of the realtime view: the queryset variant, which
drops the MEMBER vehicle category entirely before the cutoff. -/
def filter_member_data (queryset : List RTRow) (target_date : Date) (current_date : Date) : List RTRow :=
  let show_member_data := should_show_member_data target_date current_date
  if !show_member_data then queryset.filter (fun r => !(decide (r.kendaraan = "MEMBER")))
  else queryset

end RevenueRealtimeView

namespace RevenueByLocationsView

/-- `should_show_member_data` of
`app_revenue_realtime/views_revenue_by_locations.py`; textually the same
rule as the daily-details view. -/
def should_show_member_data (target_date : Date) (current_date : Date) : Bool :=
  let cutoff_date : Date :=
    if target_date.month = 12 then ⟨target_date.year + 1, 1, 6⟩
    else ⟨target_date.year, target_date.month + 1, 6⟩
  decide (Date.le cutoff_date current_date)

/-- `filter_member_data` of the by-locations realtime view (queryset
variant). -/
def filter_member_data (queryset : List RTRow) (target_date : Date) (current_date : Date) : List RTRow :=
  let show_member_data := should_show_member_data target_date current_date
  if !show_member_data then queryset.filter (fun r => !(decide (r.kendaraan = "MEMBER")))
  else queryset

/-- The per-location snapshot record assembled by
`get_latest_data_per_location`. -/
structure LatestData where
  waktu : Instant
  tanggal : Date
  has_today_transaction : Bool
deriving DecidableEq

/-- `order_by('-waktu').first()`: the row with the greatest `waktu` (the
first such row on ties), `None` on an empty queryset. -/
def first_by_waktu_desc (rows : List RTRow) : Option RTRow :=
  rows.foldl (fun acc r =>
    match acc with
    | none => some r
    | some b => if decide (Instant.lt b.waktu r.waktu) then some r else some b) none

/-- The body of `get_latest_data_per_location` for one location: first look
for a transaction dated today; otherwise fall back to the latest transaction
of any date; otherwise `None`.  `today` embeds `timezone.now().date()`. -/
def get_latest_data (today : Date) (store : List RTRow) (lokasi : String) : Option LatestData :=
  match first_by_waktu_desc (store.filter (fun r =>
      decide (r.lokasi = lokasi) && decide (r.tanggal = today))) with
  | some t => some ⟨t.waktu, today, true⟩
  | none =>
    match first_by_waktu_desc (store.filter (fun r => decide (r.lokasi = lokasi))) with
    | some t => some ⟨t.waktu, t.tanggal, false⟩
    | none => none

/-- One per-location entry of the `view_all` response. -/
structure LocEntry where
  waktu : Option Instant
  id_lokasi : String
  total_transaksi : Int
  total_pendapatan : Int
deriving DecidableEq

/-- The entry built for one location by `view_all`
(views_revenue_by_locations.py): when the snapshot is from today the
transactions up to the snapshot instant are aggregated (member-filtered);
when the location has data but none today the base queryset is set to the
empty queryset, so the totals are zero while the last known instant is still
reported. -/
def view_all_entry (today : Date) (store : List RTRow) (lokasi : String) : LocEntry :=
  match get_latest_data today store lokasi with
  | none => ⟨none, lokasi, 0, 0⟩
  | some latest =>
    let base_queryset :=
      if latest.has_today_transaction then
        store.filter (fun r => decide (r.lokasi = lokasi)
          && decide (r.tanggal = latest.tanggal) && decide (Instant.le r.waktu latest.waktu))
      else []
    if !base_queryset.isEmpty then
      let filtered_queryset := filter_member_data base_queryset latest.tanggal today
      ⟨some latest.waktu, lokasi, (filtered_queryset.map RTRow.qty).sum,
        (filtered_queryset.map RTRow.jumlah).sum⟩
    else
      ⟨some latest.waktu, lokasi, 0, 0⟩

/-- `view_all` of the by-locations realtime view: 404 when no location has
any data, otherwise one entry per location. -/
def view_all (today : Date) (store : List RTRow) (locations : List String) :
    ViewResponse (List LocEntry) :=
  if locations.all (fun l => (get_latest_data today store l).isNone) then
    ViewResponse.noData "No data available for any location"
  else
    ViewResponse.ok (locations.map (view_all_entry today store))

end RevenueByLocationsView

namespace SummaryCardsView

/-- The member-visibility rule local to `views_summary_cards.py` (note that
this one differs from the rule of the other endpoints): for a target date
outside the current calendar month the threshold is computed as
`(date.replace(day=1) + timedelta(days=32)).replace(day=5)` — day 5 of the
following month — and member data is shown when
`current_time.date() >= next_month`; for a date inside the current calendar
month the function returns False. -/
def should_show_member_data (date : Date) (current_time : Date) : Bool :=
  if date.month ≠ current_time.month ∨ date.year ≠ current_time.year then
    decide (Date.le (((Date.replaceDay date 1).addDays 32).replaceDay 5) current_time)
  else false

/-- The body of the 6-day history loop of `SummaryCardsView.get` for one
date: the day's (revenue, transactions) aggregates, with the member
component included only when the local visibility rule holds for that day. -/
def daily_summary (current_time : Date) (parkirStore : List ParkirRow)
    (memberStore : List MemberRow) (manualStore : List ManualRow) (single_date : Date) : Int × Int :=
  let show_member := should_show_member_data single_date current_time
  let cash := sumOn parkirStore (fun r => decide (r.tanggal = single_date)) ParkirRow.cash
  let prepaid := sumOn parkirStore (fun r => decide (r.tanggal = single_date)) ParkirRow.prepaid
  let casual := sumOn parkirStore (fun r => decide (r.tanggal = single_date)) ParkirRow.casual
  let pass_amount := sumOn parkirStore (fun r => decide (r.tanggal = single_date)) ParkirRow.pass_field
  let member := if show_member
    then sumOn memberStore (fun r => decide (r.tanggal = single_date)) MemberRow.member
    else 0
  let manual := sumOn manualStore (fun r => decide (r.tanggal = single_date)) ManualRow.manual
  let masalah := sumOn manualStore (fun r => decide (r.tanggal = single_date)) ManualRow.masalah
  let daily_revenue := cash + prepaid + manual + member - masalah
  let daily_transactions := casual + pass_amount
  (daily_revenue, daily_transactions)

/-- The `aggregate(Max('waktu'))` of `SummaryCardsView.get`. -/
def latest_waktu (rt : List RTRow) : Option Instant :=
  rt.foldl (fun acc r =>
    match acc with
    | none => some r.waktu
    | some w => if decide (Instant.lt w r.waktu) then some r.waktu else some w) none

/-- The summary payload of the summary-cards view. -/
structure Summary where
  total_pendapatan : Int
  pendapatan_hari_ini : Int
  total_transaksi : Int
  transaksi_hari_ini : Int
  waktu : Instant
deriving DecidableEq

/-- Steps 6 to 10 of `SummaryCardsView.get`, given the already resolved
latest instant `lw`: today's snapshot aggregates (the transaction count
always excludes the MEMBER category; the revenue adds the MEMBER amount only
when the local visibility rule holds for the snapshot date), then the six
preceding days aggregated from the daily ledgers, then the totals.  The
single history loop accumulating two counters is embedded as two sums over
the same six dates. -/
def computeSummary (lw : Instant) (current_time : Date) (rt : List RTRow)
    (parkirStore : List ParkirRow) (memberStore : List MemberRow)
    (manualStore : List ManualRow) : Summary :=
  let today_date := lw.date
  let show_today_member := should_show_member_data today_date current_time
  let today_base_revenue := sumOn rt (fun r => decide (r.tanggal = today_date)
    && decide (Instant.le r.waktu lw) && !(decide (r.kendaraan = "MEMBER"))) RTRow.jumlah
  let today_member_revenue := if show_today_member
    then sumOn rt (fun r => decide (r.tanggal = today_date)
      && decide (Instant.le r.waktu lw) && decide (r.kendaraan = "MEMBER")) RTRow.jumlah
    else 0
  let pendapatan_hari_ini := today_base_revenue + today_member_revenue
  let transaksi_hari_ini := sumOn rt (fun r => decide (r.tanggal = today_date)
    && decide (Instant.le r.waktu lw) && !(decide (r.kendaraan = "MEMBER"))) RTRow.qty
  let end_date := today_date.subDays 1
  let start_date := end_date.subDays 5
  let historical_pendapatan := ((List.range 6).map (fun n =>
    (daily_summary current_time parkirStore memberStore manualStore (start_date.addDays n)).1)).sum
  let historical_transaksi := ((List.range 6).map (fun n =>
    (daily_summary current_time parkirStore memberStore manualStore (start_date.addDays n)).2)).sum
  { total_pendapatan := historical_pendapatan + pendapatan_hari_ini
  , pendapatan_hari_ini := pendapatan_hari_ini
  , total_transaksi := historical_transaksi + transaksi_hari_ini
  , transaksi_hari_ini := transaksi_hari_ini
  , waktu := lw }

/-- `SummaryCardsView.get`: 404 when there is no realtime data at all,
otherwise the computed summary. -/
def get (current_time : Date) (rt : List RTRow) (parkirStore : List ParkirRow)
    (memberStore : List MemberRow) (manualStore : List ManualRow) : ViewResponse Summary :=
  match latest_waktu rt with
  | none => ViewResponse.noData "No data available"
  | some lw => ViewResponse.ok (computeSummary lw current_time rt parkirStore memberStore manualStore)

end SummaryCardsView

/-- Spec-side snapshot aggregation (spec section 4.5): all realtime
transactions of the location dated the as-of date with time up to the as-of
instant, excluding the MEMBER category unless the Disclosure Policy holds
for the as-of date; the pair is (total quantity, total amount). -/
def specSnapshotAggregate (current_date : Date) (store : List RTRow) (lokasi : String)
    (as_of_date : Date) (as_of : Instant) : Int × Int :=
  let rows := store.filter (fun r =>
    decide (r.lokasi = lokasi) && decide (r.tanggal = as_of_date)
    && decide (Instant.le r.waktu as_of)
    && (decide (Date.le (disclosureCutoffSpec as_of_date) current_date)
        || !(decide (r.kendaraan = "MEMBER"))))
  ((rows.map RTRow.qty).sum, (rows.map RTRow.jumlah).sum)

/-- Spec-side yearly member component (spec sections 4.2 and 8): the sum over
the twelve months of the year of that month's member aggregate, counted only
when the Disclosure Policy holds for the first day of that month. -/
def specYearlyMember (current_date : Date) (memberStore : List MemberRow)
    (site_name : String) (year : Int) : Int :=
  ((List.range 12).map (fun i =>
    if Date.le (disclosureCutoffSpec ⟨year, i + 1, 1⟩) current_date
    then RevenueByYearsView.monthMemberSum memberStore site_name year (i + 1)
    else 0)).sum

/-- Spec-side yearly member component stated over the (site, year, month)
grouped member rows of the yearly-details view: the grouped row of a month
is that month's member sum (zero when the month has no row). -/
def specYMYearlyMember (current_date : Date) (member_data : List RevenueDetailsByYearsView.YMMemberRow)
    (lokasi : String) (tahun : Int) : Int :=
  ((List.range 12).map (fun i =>
    if Date.le (disclosureCutoffSpec ⟨tahun, i + 1, 1⟩) current_date
    then RevenueDetailsByYearsView.memberLookupYM member_data tahun (i + 1) lokasi
    else 0)).sum

theorem Date.lt_trans {a b c : Date} (h1 : Date.lt a b) (h2 : Date.lt b c) :
    Date.lt a c := by
  simp only [Date.lt] at h1 h2 ⊢
  omega

theorem daysInMonth_bounds (y : Int) (m : Nat) :
    28 ≤ daysInMonth y m ∧ daysInMonth y m ≤ 31 := by
  unfold daysInMonth
  split_ifs <;> omega

theorem Date.nextDay_lit (y : Int) (m k : Nat) :
    Date.nextDay ⟨y, m, k⟩
      = if k < daysInMonth y m then ⟨y, m, k + 1⟩
        else if m < 12 then ⟨y, m + 1, 1⟩ else ⟨y + 1, 1, 1⟩ := rfl

theorem Date.prevDay_lit (y : Int) (m k : Nat) :
    Date.prevDay ⟨y, m, k⟩
      = if 1 < k then ⟨y, m, k - 1⟩
        else if 1 < m then ⟨y, m - 1, daysInMonth y (m - 1)⟩ else ⟨y - 1, 12, 31⟩ := rfl

theorem ValidDate_lit (y : Int) (m k : Nat) :
    ValidDate ⟨y, m, k⟩ ↔ 1 ≤ m ∧ m ≤ 12 ∧ 1 ≤ k ∧ k ≤ daysInMonth y m := Iff.rfl

theorem Date.lt_lit (y1 : Int) (m1 k1 : Nat) (y2 : Int) (m2 k2 : Nat) :
    Date.lt ⟨y1, m1, k1⟩ ⟨y2, m2, k2⟩
      ↔ y1 < y2 ∨ (y1 = y2 ∧ (m1 < m2 ∨ (m1 = m2 ∧ k1 < k2))) := Iff.rfl

theorem daysInMonth_december (y : Int) : daysInMonth y 12 = 31 := by
  unfold daysInMonth
  norm_num

theorem Date.prevDay_valid {d : Date} (h : ValidDate d) : ValidDate d.prevDay := by
  obtain ⟨y, m, k⟩ := d
  rw [ValidDate_lit] at h
  obtain ⟨h1, h2, h3, h4⟩ := h
  rw [Date.prevDay_lit]
  split_ifs with hd hm
  · rw [ValidDate_lit]
    omega
  · rw [ValidDate_lit]
    have hb := daysInMonth_bounds y (m - 1)
    omega
  · rw [ValidDate_lit]
    have hb := daysInMonth_december (y - 1)
    omega

theorem Date.nextDay_prevDay {d : Date} (h : ValidDate d) : d.prevDay.nextDay = d := by
  obtain ⟨y, m, k⟩ := d
  rw [ValidDate_lit] at h
  obtain ⟨h1, h2, h3, h4⟩ := h
  rw [Date.prevDay_lit]
  split_ifs with hd hm
  · have hc : k - 1 < daysInMonth y m := by omega
    rw [Date.nextDay_lit, if_pos hc]
    simp only [Date.mk.injEq, true_and, and_true]
    all_goals omega
  · have hb := daysInMonth_bounds y (m - 1)
    have hc1 : ¬ (daysInMonth y (m - 1) < daysInMonth y (m - 1)) := by omega
    have hc2 : m - 1 < 12 := by omega
    rw [Date.nextDay_lit, if_neg hc1, if_pos hc2]
    simp only [Date.mk.injEq, true_and, and_true]
    all_goals omega
  · have hb := daysInMonth_december (y - 1)
    have hc1 : ¬ ((31 : Nat) < daysInMonth (y - 1) 12) := by omega
    have hc2 : ¬ ((12 : Nat) < 12) := by omega
    rw [Date.nextDay_lit, if_neg hc1, if_neg hc2]
    simp only [Date.mk.injEq, true_and, and_true]
    all_goals omega

theorem Date.prevDay_lt {d : Date} (h : ValidDate d) : Date.lt d.prevDay d := by
  obtain ⟨y, m, k⟩ := d
  rw [ValidDate_lit] at h
  obtain ⟨h1, h2, h3, h4⟩ := h
  rw [Date.prevDay_lit]
  split_ifs with hd hm <;> rw [Date.lt_lit] <;> omega

theorem Date.subDays_succ_comm (d : Date) (n : Nat) :
    d.subDays (n + 1) = (d.subDays n).prevDay := by
  induction n generalizing d with
  | zero => rfl
  | succ k ih =>
    show (d.prevDay).subDays (k + 1) = _
    rw [ih d.prevDay]
    rfl

theorem Date.subDays_subDays (d : Date) (a b : Nat) :
    (d.subDays a).subDays b = d.subDays (a + b) := by
  induction a generalizing d with
  | zero =>
    rw [Nat.zero_add]
    rfl
  | succ k ih =>
    have hk : k + 1 + b = (k + b) + 1 := by omega
    rw [hk]
    show ((d.prevDay).subDays k).subDays b = (d.prevDay).subDays (k + b)
    exact ih d.prevDay

theorem Date.subDays_valid {d : Date} (h : ValidDate d) (n : Nat) :
    ValidDate (d.subDays n) := by
  induction n generalizing d with
  | zero => exact h
  | succ k ih => exact ih (Date.prevDay_valid h)

theorem Date.subDays_lt {d : Date} (h : ValidDate d) (k : Nat) :
    Date.lt (d.subDays (k + 1)) d := by
  induction k generalizing d with
  | zero => exact Date.prevDay_lt h
  | succ j ih =>
    have h1 : Date.lt ((d.prevDay).subDays (j + 1)) d.prevDay := ih (Date.prevDay_valid h)
    exact Date.lt_trans h1 (Date.prevDay_lt h)

theorem Date.addDays_add (d : Date) (a b : Nat) :
    d.addDays (a + b) = (d.addDays a).addDays b := by
  induction a generalizing d with
  | zero =>
    rw [Nat.zero_add]
    rfl
  | succ k ih =>
    have hab : k + 1 + b = (k + b) + 1 := by omega
    rw [hab]
    show (d.nextDay).addDays (k + b) = _
    rw [ih d.nextDay]
    rfl

theorem Date.addDays_subDays {d : Date} (h : ValidDate d) :
    ∀ (n k : Nat), n ≤ k → (d.subDays k).addDays n = d.subDays (k - n) := by
  intro n
  induction n generalizing d with
  | zero => intro k _; rfl
  | succ m ih =>
    intro k hk
    obtain ⟨j, rfl⟩ : ∃ j, k = j + 1 := ⟨k - 1, by omega⟩
    rw [Date.subDays_succ_comm]
    show ((d.subDays j).prevDay.nextDay).addDays m = _
    rw [Date.nextDay_prevDay (Date.subDays_valid h j)]
    rw [ih h j (by omega)]
    congr 1
    omega

theorem Date.addDays_within (y : Int) (m : Nat) :
    ∀ (n day : Nat), day + n ≤ daysInMonth y m →
      Date.addDays ⟨y, m, day⟩ n = ⟨y, m, day + n⟩ := by
  intro n
  induction n with
  | zero => intro day _; rfl
  | succ k ih =>
    intro day hle
    show Date.addDays (Date.nextDay ⟨y, m, day⟩) k = _
    have hlt : day < daysInMonth y m := by omega
    rw [Date.nextDay_lit, if_pos hlt]
    rw [ih (day + 1) (by omega)]
    congr 1
    omega

theorem Date.addDays32_first (y : Int) (m : Nat) (h1 : 1 ≤ m) (h2 : m ≤ 12) :
    Date.addDays ⟨y, m, 1⟩ 32
      = if m = 12 then (⟨y + 1, 1, 33 - daysInMonth y 12⟩ : Date)
        else ⟨y, m + 1, 33 - daysInMonth y m⟩ := by
  obtain ⟨ha, hb⟩ := daysInMonth_bounds y m
  have h32 : (32 : Nat) = (daysInMonth y m - 1) + ((32 - daysInMonth y m) + 1) := by omega
  rw [h32, Date.addDays_add]
  rw [Date.addDays_within y m (daysInMonth y m - 1) 1 (by omega)]
  have hdim : 1 + (daysInMonth y m - 1) = daysInMonth y m := by omega
  rw [hdim]
  show Date.addDays (Date.nextDay ⟨y, m, daysInMonth y m⟩) (32 - daysInMonth y m) = _
  by_cases hm : m = 12
  · rw [if_pos hm]
    subst hm
    have hc1 : ¬ (daysInMonth y 12 < daysInMonth y 12) := by omega
    have hc2 : ¬ ((12 : Nat) < 12) := by omega
    rw [Date.nextDay_lit, if_neg hc1, if_neg hc2]
    have hb1 := daysInMonth_bounds (y + 1) 1
    rw [Date.addDays_within (y + 1) 1 (32 - daysInMonth y 12) 1 (by omega)]
    simp only [Date.mk.injEq, true_and, and_true]
    all_goals omega
  · rw [if_neg hm]
    have hc1 : ¬ (daysInMonth y m < daysInMonth y m) := by omega
    have hc2 : m < 12 := by omega
    rw [Date.nextDay_lit, if_neg hc1, if_pos hc2]
    have hb1 := daysInMonth_bounds y (m + 1)
    rw [Date.addDays_within y (m + 1) (32 - daysInMonth y m) 1 (by omega)]
    simp only [Date.mk.injEq, true_and, and_true]
    all_goals omega

/-- C1: for every target date in a calendar month M and every evaluation
date, the member-disclosure checks of the daily-details view and of the
realtime view return true exactly when the evaluation date is on or after
the 6th calendar day of the month following M (January of the next year when
M is December); in particular they return false on the 5th of the following
month and true on the 6th, and the December cutoff of 2024 is 2025-01-06. -/
theorem C1_disclosure_cutoff :
    (∀ (target now : Date),
      RevenueDetailsByDaysView.should_show_member_data target now
        = decide (Date.le (disclosureCutoffSpec target) now))
    ∧ (∀ (target now : Date),
      RevenueRealtimeView.should_show_member_data target now
        = decide (Date.le (disclosureCutoffSpec target) now))
    ∧ disclosureCutoffSpec ⟨2024, 3, 15⟩ = ⟨2024, 4, 6⟩
    ∧ disclosureCutoffSpec ⟨2024, 12, 15⟩ = ⟨2025, 1, 6⟩
    ∧ RevenueDetailsByDaysView.should_show_member_data ⟨2024, 3, 15⟩ ⟨2024, 4, 5⟩ = false
    ∧ RevenueDetailsByDaysView.should_show_member_data ⟨2024, 3, 15⟩ ⟨2024, 4, 6⟩ = true
    ∧ RevenueRealtimeView.should_show_member_data ⟨2024, 3, 15⟩ ⟨2024, 4, 5⟩ = false
    ∧ RevenueRealtimeView.should_show_member_data ⟨2024, 3, 15⟩ ⟨2024, 4, 6⟩ = true := by
  refine ⟨fun target now => rfl, fun target now => rfl, ?_, ?_, ?_, ?_, ?_, ?_⟩ <;> decide

set_option maxRecDepth 8192 in
/-- C2 counterexample: the summary-cards predicate disagrees with the
daily-details predicate at target 2024-03-15 and evaluation date 2024-04-05
(the 5th of the month following the target month): the summary-cards view
already discloses member data there while the daily-details view does not,
so the five predicates are not all extensionally equal. -/
theorem C2_counterexample :
    SummaryCardsView.should_show_member_data ⟨2024, 3, 15⟩ ⟨2024, 4, 5⟩ = true
    ∧ RevenueDetailsByDaysView.should_show_member_data ⟨2024, 3, 15⟩ ⟨2024, 4, 5⟩ = false
    ∧ SummaryCardsView.should_show_member_data ⟨2024, 3, 15⟩ ⟨2024, 4, 5⟩
      ≠ RevenueDetailsByDaysView.should_show_member_data ⟨2024, 3, 15⟩ ⟨2024, 4, 5⟩ := by
  refine ⟨?_, ?_, ?_⟩ <;> decide

/-- C2 amended: the disclosure predicates of the daily-details,
monthly-trends, yearly-details, yearly-trends and both realtime endpoints
are pairwise extensionally equal, but the summary-cards predicate is not
equal to them: for a target date with a valid month number it returns true
exactly when the target lies outside the evaluation date's calendar month
and the evaluation date is on or after the 5th (not the 6th) of the month
following the target month. -/
theorem C2_amended_predicates :
    (∀ (target now : Date),
      RevenueByMonthsView.should_show_member_data target now
        = RevenueDetailsByDaysView.should_show_member_data target now
      ∧ RevenueDetailsByYearsView.should_show_member_data target now
        = RevenueDetailsByDaysView.should_show_member_data target now
      ∧ RevenueByYearsView.should_show_member_data target now
        = RevenueDetailsByDaysView.should_show_member_data target now
      ∧ RevenueRealtimeView.should_show_member_data target now
        = RevenueDetailsByDaysView.should_show_member_data target now
      ∧ RevenueByLocationsView.should_show_member_data target now
        = RevenueDetailsByDaysView.should_show_member_data target now)
    ∧ (∀ (target now : Date), 1 ≤ target.month → target.month ≤ 12 →
      SummaryCardsView.should_show_member_data target now
        = (decide (target.month ≠ now.month ∨ target.year ≠ now.year)
           && decide (Date.le (summaryCardsCutoff target) now))) := by
  constructor
  · intro target now
    exact ⟨rfl, rfl, rfl, rfl, rfl⟩
  · intro target now h1 h2
    unfold SummaryCardsView.should_show_member_data
    have hc : ((Date.replaceDay target 1).addDays 32).replaceDay 5 = summaryCardsCutoff target := by
      have h32 := Date.addDays32_first target.year target.month h1 h2
      show Date.replaceDay (Date.addDays ⟨target.year, target.month, 1⟩ 32) 5 = _
      rw [h32]
      unfold summaryCardsCutoff Date.replaceDay
      split_ifs <;> rfl
    rw [hc]
    by_cases hp : target.month ≠ now.month ∨ target.year ≠ now.year
    · rw [if_pos hp, decide_eq_true hp, Bool.true_and]
    · rw [if_neg hp, decide_eq_false hp, Bool.false_and]

/-- C2 amended witness: the characterisation of the summary-cards predicate
instantiated at target 2024-03-15 and evaluation date 2024-04-05. -/
theorem C2_amended_witness :
    SummaryCardsView.should_show_member_data ⟨2024, 3, 15⟩ ⟨2024, 4, 5⟩
      = (decide ((⟨2024, 3, 15⟩ : Date).month ≠ (⟨2024, 4, 5⟩ : Date).month
          ∨ (⟨2024, 3, 15⟩ : Date).year ≠ (⟨2024, 4, 5⟩ : Date).year)
         && decide (Date.le (summaryCardsCutoff ⟨2024, 3, 15⟩) ⟨2024, 4, 5⟩)) :=
  C2_amended_predicates.2 ⟨2024, 3, 15⟩ ⟨2024, 4, 5⟩ (by decide) (by decide)

/-- C3: for every composed period record the reported total equals
cash + prepaid + manual − problem + (raw member when the disclosure check
holds for the period's anchor date, else 0), and the member field of the
returned breakdown is that post-disclosure value — both for the daily
records of the daily-details view and for the month records of the
monthly-trends view. -/
theorem C3_composed_total :
    (∀ (now : Date) (member_data : List MemberRow) (manual_data : List ManualRow)
      (parkir : ParkirRow),
      (RevenueDetailsByDaysView.dayRecordOf now member_data manual_data parkir).total_pendapatan
        = parkir.cash + parkir.prepaid
          + RevenueDetailsByDaysView.manualLookup manual_data parkir.tanggal parkir.lokasi
          - RevenueDetailsByDaysView.masalahLookup manual_data parkir.tanggal parkir.lokasi
          + (if RevenueDetailsByDaysView.should_show_member_data parkir.tanggal now
             then RevenueDetailsByDaysView.memberLookup member_data parkir.tanggal parkir.lokasi
             else 0)
      ∧ (RevenueDetailsByDaysView.dayRecordOf now member_data manual_data parkir).member
        = (if RevenueDetailsByDaysView.should_show_member_data parkir.tanggal now
           then RevenueDetailsByDaysView.memberLookup member_data parkir.tanggal parkir.lokasi
           else 0))
    ∧ (∀ (now : Date) (member_data : List RevenueByMonthsView.MonthMemberRow)
        (manual_data : List RevenueByMonthsView.MonthManualRow)
        (row : RevenueByMonthsView.MonthRow),
      (RevenueByMonthsView.monthRecordOf now member_data manual_data row).total
        = row.cash + row.prepaid
          + RevenueByMonthsView.manualLookupM manual_data row.month
          - RevenueByMonthsView.masalahLookupM manual_data row.month
          + (if RevenueByMonthsView.should_show_member_data row.month now
             then RevenueByMonthsView.memberLookupM member_data row.month
             else 0)
      ∧ (RevenueByMonthsView.monthRecordOf now member_data manual_data row).member
        = (if RevenueByMonthsView.should_show_member_data row.month now
           then RevenueByMonthsView.memberLookupM member_data row.month
           else 0)) := by
  constructor
  · intro now member_data manual_data parkir
    unfold RevenueDetailsByDaysView.dayRecordOf RevenueDetailsByDaysView.filter_member_data
    constructor
    · dsimp only
      split_ifs <;> ring
    · dsimp only
  · intro now member_data manual_data row
    unfold RevenueByMonthsView.monthRecordOf RevenueByMonthsView.filter_member_data
    constructor
    · dsimp only
      split_ifs <;> ring
    · dsimp only

/-- The disclosure filter of the yearly-trends view written as a spec-side
conditional on the Disclosure Policy cutoff. -/
theorem yearsTrends_filter_spec (v : Int) (t now : Date) :
    RevenueByYearsView.filter_member_data v t now
      = if Date.le (disclosureCutoffSpec t) now then v else 0 := by
  unfold RevenueByYearsView.filter_member_data RevenueByYearsView.should_show_member_data
    disclosureCutoffSpec
  simp only [decide_eq_true_eq]

/-- The disclosure filter of the yearly-details view written as a spec-side
conditional on the Disclosure Policy cutoff. -/
theorem yearsDetails_filter_spec (v : Int) (t now : Date) :
    RevenueDetailsByYearsView.filter_member_data v t now
      = if Date.le (disclosureCutoffSpec t) now then v else 0 := by
  unfold RevenueDetailsByYearsView.filter_member_data
    RevenueDetailsByYearsView.should_show_member_data disclosureCutoffSpec
  simp only [decide_eq_true_eq]

/-- C4 counterexample: in the yearly-details view a month with member
revenue but no parkir row contributes nothing to the year's member
component.  With a single member row of 100 for January 2024 (disclosed at
now = 2024-06-15) and parkir data only for February 2024, the assembled year
entry has member component 0, while the claimed sum over the twelve
months of the disclosure-filtered month member sums is 100. -/
theorem C4_counterexample :
    RevenueDetailsByYearsView.year_entry_member ⟨2024, 6, 15⟩
        [⟨"A", 2024, 2, 0, 0, 0, 0⟩] [⟨"A", 2024, 1, 100⟩] "A" 2024 = 0
    ∧ specYMYearlyMember ⟨2024, 6, 15⟩ [⟨"A", 2024, 1, 100⟩] "A" 2024 = 100
    ∧ (0 : Int) ≠ 100 := by
  refine ⟨?_, ?_, ?_⟩ <;> decide

/-- C4 amended: the yearly-trends view accumulates the member component
exactly as the claim states, month by month over all twelve months with the
Disclosure Policy applied per month (and the January-disclosed,
December-undisclosed example yields 100, not 200); the yearly-details view
applies the same per-month filtering but accumulates only over the months
that have a parkir row, so it agrees with the claimed twelve-month sum
whenever the grouped parkir rows of the (site, year) pair cover exactly the
months 1 through 12. -/
theorem C4_amended_yearly_member :
    (∀ (now : Date) (memberStore : List MemberRow) (site_name : String) (year : Int),
      RevenueByYearsView.total_member now memberStore site_name year
        = specYearlyMember now memberStore site_name year)
    ∧ RevenueByYearsView.total_member ⟨2024, 6, 15⟩
        [⟨"A", ⟨2024, 1, 10⟩, 100⟩, ⟨"A", ⟨2024, 12, 20⟩, 100⟩] "A" 2024 = 100
    ∧ (∀ (now : Date) (parkir_data : List RevenueDetailsByYearsView.YMParkirRow)
        (member_data : List RevenueDetailsByYearsView.YMMemberRow)
        (lokasi : String) (tahun : Int),
      ((parkir_data.filter (fun p => decide (p.lokasi = lokasi) && decide (p.tahun = tahun))).map
          (fun p => p.bulan)) = (List.range 12).map (fun i => i + 1) →
      RevenueDetailsByYearsView.year_entry_member now parkir_data member_data lokasi tahun
        = specYMYearlyMember now member_data lokasi tahun) := by
  refine ⟨?_, ?_, ?_⟩
  · intro now ms site y
    unfold RevenueByYearsView.total_member specYearlyMember
    congr 1
    apply List.map_congr_left
    intro i _
    exact yearsTrends_filter_spec _ _ _
  · decide
  · intro now ps ms L Y hmonths
    unfold RevenueDetailsByYearsView.year_entry_member specYMYearlyMember
    have hstep1 :
        (ps.filter (fun p => decide (p.lokasi = L) && decide (p.tahun = Y))).map
            (fun p => RevenueDetailsByYearsView.filter_member_data
              (RevenueDetailsByYearsView.memberLookupYM ms p.tahun p.bulan p.lokasi)
              ⟨p.tahun, p.bulan, 1⟩ now)
          = (ps.filter (fun p => decide (p.lokasi = L) && decide (p.tahun = Y))).map
            (fun p => RevenueDetailsByYearsView.filter_member_data
              (RevenueDetailsByYearsView.memberLookupYM ms Y p.bulan L)
              ⟨Y, p.bulan, 1⟩ now) := by
      apply List.map_congr_left
      intro p hp
      have hmem := (List.mem_filter.mp hp).2
      simp only [Bool.and_eq_true, decide_eq_true_eq] at hmem
      rw [hmem.1, hmem.2]
    rw [hstep1]
    have hstep2 :
        (ps.filter (fun p => decide (p.lokasi = L) && decide (p.tahun = Y))).map
            (fun p => RevenueDetailsByYearsView.filter_member_data
              (RevenueDetailsByYearsView.memberLookupYM ms Y p.bulan L) ⟨Y, p.bulan, 1⟩ now)
          = ((ps.filter (fun p => decide (p.lokasi = L) && decide (p.tahun = Y))).map
              (fun p => p.bulan)).map
            (fun b => RevenueDetailsByYearsView.filter_member_data
              (RevenueDetailsByYearsView.memberLookupYM ms Y b L) ⟨Y, b, 1⟩ now) := by
      rw [List.map_map]
      rfl
    rw [hstep2, hmonths, List.map_map]
    congr 1
    apply List.map_congr_left
    intro i _
    show RevenueDetailsByYearsView.filter_member_data
        (RevenueDetailsByYearsView.memberLookupYM ms Y (i + 1) L) ⟨Y, i + 1, 1⟩ now = _
    rw [yearsDetails_filter_spec]

/-- C4 amended witness: the full-year condition of the amended statement
instantiated with parkir rows covering all twelve months of 2024 for site A
and a single January member row of 100, evaluated at now = 2024-06-15. -/
theorem C4_amended_witness :
    RevenueDetailsByYearsView.year_entry_member ⟨2024, 6, 15⟩
        [⟨"A", 2024, 1, 0, 0, 0, 0⟩, ⟨"A", 2024, 2, 0, 0, 0, 0⟩, ⟨"A", 2024, 3, 0, 0, 0, 0⟩,
         ⟨"A", 2024, 4, 0, 0, 0, 0⟩, ⟨"A", 2024, 5, 0, 0, 0, 0⟩, ⟨"A", 2024, 6, 0, 0, 0, 0⟩,
         ⟨"A", 2024, 7, 0, 0, 0, 0⟩, ⟨"A", 2024, 8, 0, 0, 0, 0⟩, ⟨"A", 2024, 9, 0, 0, 0, 0⟩,
         ⟨"A", 2024, 10, 0, 0, 0, 0⟩, ⟨"A", 2024, 11, 0, 0, 0, 0⟩, ⟨"A", 2024, 12, 0, 0, 0, 0⟩]
        [⟨"A", 2024, 1, 100⟩] "A" 2024
      = specYMYearlyMember ⟨2024, 6, 15⟩ [⟨"A", 2024, 1, 100⟩] "A" 2024 :=
  C4_amended_yearly_member.2.2 ⟨2024, 6, 15⟩
    [⟨"A", 2024, 1, 0, 0, 0, 0⟩, ⟨"A", 2024, 2, 0, 0, 0, 0⟩, ⟨"A", 2024, 3, 0, 0, 0, 0⟩,
     ⟨"A", 2024, 4, 0, 0, 0, 0⟩, ⟨"A", 2024, 5, 0, 0, 0, 0⟩, ⟨"A", 2024, 6, 0, 0, 0, 0⟩,
     ⟨"A", 2024, 7, 0, 0, 0, 0⟩, ⟨"A", 2024, 8, 0, 0, 0, 0⟩, ⟨"A", 2024, 9, 0, 0, 0, 0⟩,
     ⟨"A", 2024, 10, 0, 0, 0, 0⟩, ⟨"A", 2024, 11, 0, 0, 0, 0⟩, ⟨"A", 2024, 12, 0, 0, 0, 0⟩]
    [⟨"A", 2024, 1, 100⟩] "A" 2024 (by decide)

/-- C5 counterexample: with no parkir rows at all but a member row of 50 for
site A on 2024-03-01 (inside the requested March 2024 range), the
daily-details processing loop produces no record whatsoever — in particular
no zero-valued record for (A, 2024-03-01) — so a (location, day) without
ledger rows is an absent entry, not a zero record. -/
theorem C5_counterexample :
    RevenueDetailsByDaysView.view_by_locations_records ⟨2024, 4, 10⟩ []
        [⟨"A", ⟨2024, 3, 1⟩, 50⟩] [] = []
    ∧ ¬ ∃ r, r ∈ RevenueDetailsByDaysView.view_by_locations_records ⟨2024, 4, 10⟩ []
          [⟨"A", ⟨2024, 3, 1⟩, 50⟩] []
        ∧ r.1 = "A" ∧ r.2.tanggal = ⟨2024, 3, 1⟩ := by
  constructor
  · rfl
  · rintro ⟨r, hr, -⟩
    exact absurd hr (List.not_mem_nil r)

/-- C5 amended: a (location, day) record exists in the daily-details result
exactly when the grouped parkir queryset has a row for that location and
day; a day with no parkir row is absent even when member or manual rows
exist for it, and when a parkir row exists the member and manual components
default to zero in the absence of matching rows, giving
total = cash + prepaid. -/
theorem C5_amended_records :
    (∀ (now : Date) (parkir_data : List ParkirRow) (member_data : List MemberRow)
      (manual_data : List ManualRow) (lokasi : String) (d : Date),
      (∃ r, r ∈ RevenueDetailsByDaysView.view_by_locations_records now parkir_data
            member_data manual_data
        ∧ r.1 = lokasi ∧ r.2.tanggal = d)
      ↔ ∃ p, p ∈ parkir_data ∧ p.lokasi = lokasi ∧ p.tanggal = d)
    ∧ (∀ (now : Date) (member_data : List MemberRow) (manual_data : List ManualRow)
        (p : ParkirRow),
      member_data.find? (fun m => decide (m.tanggal = p.tanggal)
        && decide (m.lokasi = p.lokasi)) = none →
      manual_data.find? (fun man => decide (man.tanggal = p.tanggal)
        && decide (man.lokasi = p.lokasi)) = none →
      (RevenueDetailsByDaysView.dayRecordOf now member_data manual_data p).member = 0
      ∧ (RevenueDetailsByDaysView.dayRecordOf now member_data manual_data p).manual = 0
      ∧ (RevenueDetailsByDaysView.dayRecordOf now member_data manual_data p).tiket_masalah = 0
      ∧ (RevenueDetailsByDaysView.dayRecordOf now member_data manual_data p).total_pendapatan
          = p.cash + p.prepaid) := by
  constructor
  · intro now ps ms mans lokasi d
    constructor
    · rintro ⟨r, hr, h1, h2⟩
      unfold RevenueDetailsByDaysView.view_by_locations_records at hr
      obtain ⟨p, hp, rfl⟩ := List.mem_map.mp hr
      exact ⟨p, hp, h1, h2⟩
    · rintro ⟨p, hp, h1, h2⟩
      refine ⟨(p.lokasi, RevenueDetailsByDaysView.dayRecordOf now ms mans p), ?_, h1, h2⟩
      exact List.mem_map_of_mem _ hp
  · intro now ms mans p hm hman
    unfold RevenueDetailsByDaysView.dayRecordOf RevenueDetailsByDaysView.filter_member_data
      RevenueDetailsByDaysView.memberLookup RevenueDetailsByDaysView.manualLookup
      RevenueDetailsByDaysView.masalahLookup
    dsimp only
    rw [hm, hman]
    refine ⟨?_, rfl, rfl, ?_⟩
    · split_ifs <;> rfl
    · split_ifs <;> simp

/-- C5 amended witness: the zero-default part of the amended statement
instantiated at a concrete parkir row with empty member and manual stores. -/
theorem C5_amended_witness :
    (RevenueDetailsByDaysView.dayRecordOf ⟨2024, 4, 10⟩ [] []
        ⟨"A", ⟨2024, 3, 2⟩, 7, 8, 1, 2⟩).member = 0
    ∧ (RevenueDetailsByDaysView.dayRecordOf ⟨2024, 4, 10⟩ [] []
        ⟨"A", ⟨2024, 3, 2⟩, 7, 8, 1, 2⟩).manual = 0
    ∧ (RevenueDetailsByDaysView.dayRecordOf ⟨2024, 4, 10⟩ [] []
        ⟨"A", ⟨2024, 3, 2⟩, 7, 8, 1, 2⟩).tiket_masalah = 0
    ∧ (RevenueDetailsByDaysView.dayRecordOf ⟨2024, 4, 10⟩ [] []
        ⟨"A", ⟨2024, 3, 2⟩, 7, 8, 1, 2⟩).total_pendapatan
        = (⟨"A", ⟨2024, 3, 2⟩, 7, 8, 1, 2⟩ : ParkirRow).cash
          + (⟨"A", ⟨2024, 3, 2⟩, 7, 8, 1, 2⟩ : ParkirRow).prepaid :=
  C5_amended_records.2 ⟨2024, 4, 10⟩ [] [] ⟨"A", ⟨2024, 3, 2⟩, 7, 8, 1, 2⟩ rfl rfl

/-- C6 counterexample: running the monthly-trends aggregation against a
store with no ledger rows at all dereferences `first().tanggal` on `None`;
the raised AttributeError is caught by the request handler and surfaced as a
500 error response — not a defined empty/zero or explicit no-data result. -/
theorem C6_counterexample :
    RevenueByMonthsView.view_all ⟨2024, 6, 10⟩ [] [] [] []
      = ViewResponse.error "AttributeError"
    ∧ (RevenueByMonthsView.view_all ⟨2024, 6, 10⟩ [] [] [] []).isError = true
    ∧ RevenueByMonthsView.view_all ⟨2024, 6, 10⟩ [] [] [] [] ≠ ViewResponse.ok [] := by
  refine ⟨rfl, rfl, ?_⟩
  decide

/-- C6 amended: in the daily-details view the statistics loop runs only over
locations owning at least one record, so every per-field statistics block
(including the average, which divides by the series length) is computed over
a nonempty series and always defined; but the monthly-trends view run
against a store with no ledger rows raises an AttributeError on
`first().tanggal`, surfaced as a 500 error response rather than a defined
empty result. -/
theorem C6_amended_no_data :
    (∀ (now : Date) (parkir_data : List ParkirRow) (member_data : List MemberRow)
      (manual_data : List ManualRow) (lokasi : String)
      (f : RevenueDetailsByDaysView.DayRecord → Int),
      (∃ r, r ∈ RevenueDetailsByDaysView.view_by_locations_records now parkir_data
            member_data manual_data
        ∧ r.1 = lokasi) →
      (RevenueDetailsByDaysView.fieldStats f
        (RevenueDetailsByDaysView.locRecords
          (RevenueDetailsByDaysView.view_by_locations_records now parkir_data
            member_data manual_data)
          lokasi)).isSome = true)
    ∧ (∀ (now : Date) (parkir_months : List RevenueByMonthsView.MonthRow)
        (member_months : List RevenueByMonthsView.MonthMemberRow)
        (manual_months : List RevenueByMonthsView.MonthManualRow),
      RevenueByMonthsView.view_all now [] parkir_months member_months manual_months
        = ViewResponse.error "AttributeError") := by
  constructor
  · rintro now ps ms mans lokasi f ⟨r, hr, h1⟩
    have hfil : r ∈ (RevenueDetailsByDaysView.view_by_locations_records now ps ms mans).filter
        (fun x => decide (x.1 = lokasi)) :=
      List.mem_filter.mpr ⟨hr, decide_eq_true h1⟩
    have hmem : r.2 ∈ RevenueDetailsByDaysView.locRecords
        (RevenueDetailsByDaysView.view_by_locations_records now ps ms mans) lokasi :=
      List.mem_map_of_mem _ hfil
    cases hl : RevenueDetailsByDaysView.locRecords
        (RevenueDetailsByDaysView.view_by_locations_records now ps ms mans) lokasi with
    | nil =>
      rw [hl] at hmem
      exact absurd hmem (List.not_mem_nil _)
    | cons d rest =>
      rfl
  · intro now pm mm manm
    rfl

/-- C6 amended witness: the nonempty-series part of the amended statement
instantiated with a single parkir row for site A, showing the statistics
block of the total-revenue field is defined. -/
theorem C6_amended_witness :
    (RevenueDetailsByDaysView.fieldStats (fun r => r.total_pendapatan)
      (RevenueDetailsByDaysView.locRecords
        (RevenueDetailsByDaysView.view_by_locations_records ⟨2024, 4, 10⟩
          [⟨"A", ⟨2024, 3, 2⟩, 7, 8, 1, 2⟩] [] [])
        "A")).isSome = true :=
  C6_amended_no_data.1 ⟨2024, 4, 10⟩ [⟨"A", ⟨2024, 3, 2⟩, 7, 8, 1, 2⟩] [] [] "A"
    (fun r => r.total_pendapatan)
    ⟨("A", RevenueDetailsByDaysView.dayRecordOf ⟨2024, 4, 10⟩ [] []
        ⟨"A", ⟨2024, 3, 2⟩, 7, 8, 1, 2⟩),
      List.mem_map_of_mem _ (List.mem_singleton.mpr rfl), rfl⟩

/-- C7 counterexample: a location whose only transaction is dated yesterday
(today is 2024-06-10, the transaction is 100 on 2024-06-09): the view entry
reports the last known instant but totals of zero, while the claimed
snapshot aggregate over the as-of day is (1, 100). -/
theorem C7_counterexample :
    RevenueByLocationsView.view_all_entry ⟨2024, 6, 10⟩
        [⟨"A", ⟨2024, 6, 9⟩, ⟨⟨2024, 6, 9⟩, 900⟩, "MOBIL", 1, 100⟩] "A"
      = ⟨some ⟨⟨2024, 6, 9⟩, 900⟩, "A", 0, 0⟩
    ∧ specSnapshotAggregate ⟨2024, 6, 10⟩
        [⟨"A", ⟨2024, 6, 9⟩, ⟨⟨2024, 6, 9⟩, 900⟩, "MOBIL", 1, 100⟩] "A"
        ⟨2024, 6, 9⟩ ⟨⟨2024, 6, 9⟩, 900⟩ = (1, 100)
    ∧ ((0 : Int), (0 : Int)) ≠ ((1 : Int), (100 : Int)) := by
  refine ⟨?_, ?_, ?_⟩ <;> decide

/-- C7 amended: for a location with realtime transactions but none dated
today, the by-locations realtime view resolves the snapshot to the most
recent transaction — its time as the as-of instant, its date as the as-of
date, flagged as not-today — but deliberately reports totals of zero (the
aggregation runs only when the snapshot is from today), not the aggregate of
the as-of day's transactions. -/
theorem C7_amended_stale_snapshot (today : Date) (store : List RTRow) (lokasi : String)
    (t : RTRow)
    (h1 : store.filter (fun r => decide (r.lokasi = lokasi) && decide (r.tanggal = today)) = [])
    (h2 : RevenueByLocationsView.first_by_waktu_desc
        (store.filter (fun r => decide (r.lokasi = lokasi))) = some t) :
    RevenueByLocationsView.get_latest_data today store lokasi
      = some ⟨t.waktu, t.tanggal, false⟩
    ∧ RevenueByLocationsView.view_all_entry today store lokasi
      = ⟨some t.waktu, lokasi, 0, 0⟩ := by
  have hlat : RevenueByLocationsView.get_latest_data today store lokasi
      = some ⟨t.waktu, t.tanggal, false⟩ := by
    unfold RevenueByLocationsView.get_latest_data
    rw [h1, h2]
    rfl
  refine ⟨hlat, ?_⟩
  unfold RevenueByLocationsView.view_all_entry
  rw [hlat]
  rfl

/-- C7 amended witness: the amended statement instantiated at the
single-stale-transaction store of the counterexample. -/
theorem C7_amended_witness :
    RevenueByLocationsView.get_latest_data ⟨2024, 6, 10⟩
        [⟨"A", ⟨2024, 6, 9⟩, ⟨⟨2024, 6, 9⟩, 900⟩, "MOBIL", 1, 100⟩] "A"
      = some ⟨⟨⟨2024, 6, 9⟩, 900⟩, ⟨2024, 6, 9⟩, false⟩
    ∧ RevenueByLocationsView.view_all_entry ⟨2024, 6, 10⟩
        [⟨"A", ⟨2024, 6, 9⟩, ⟨⟨2024, 6, 9⟩, 900⟩, "MOBIL", 1, 100⟩] "A"
      = ⟨some ⟨⟨2024, 6, 9⟩, 900⟩, "A", 0, 0⟩ :=
  C7_amended_stale_snapshot ⟨2024, 6, 10⟩
    [⟨"A", ⟨2024, 6, 9⟩, ⟨⟨2024, 6, 9⟩, 900⟩, "MOBIL", 1, 100⟩] "A"
    ⟨"A", ⟨2024, 6, 9⟩, ⟨⟨2024, 6, 9⟩, 900⟩, "MOBIL", 1, 100⟩ (by decide) (by decide)

/-- C8: the trailing-window totals of the summary-cards computation equal
today's snapshot aggregates plus the sum of exactly six daily aggregates for
the dates as_of − 6 through as_of − 1; the as-of day contributes only
through the snapshot term, and each of the six history dates lies strictly
before the as-of date, so no day is double counted or skipped at the
boundary. -/
theorem C8_trailing_window (lw : Instant) (now : Date) (rt : List RTRow)
    (parkirStore : List ParkirRow) (memberStore : List MemberRow)
    (manualStore : List ManualRow) (h : ValidDate lw.date) :
    ((SummaryCardsView.computeSummary lw now rt parkirStore memberStore manualStore).total_pendapatan
      = (SummaryCardsView.computeSummary lw now rt parkirStore memberStore manualStore).pendapatan_hari_ini
        + ((List.range 6).map (fun k =>
            (SummaryCardsView.daily_summary now parkirStore memberStore manualStore
              (lw.date.subDays (k + 1))).1)).sum)
    ∧ ((SummaryCardsView.computeSummary lw now rt parkirStore memberStore manualStore).total_transaksi
      = (SummaryCardsView.computeSummary lw now rt parkirStore memberStore manualStore).transaksi_hari_ini
        + ((List.range 6).map (fun k =>
            (SummaryCardsView.daily_summary now parkirStore memberStore manualStore
              (lw.date.subDays (k + 1))).2)).sum)
    ∧ (∀ k, k < 6 → Date.lt (lw.date.subDays (k + 1)) lw.date) := by
  have hstart : (lw.date.subDays 1).subDays 5 = lw.date.subDays 6 :=
    Date.subDays_subDays lw.date 1 5
  have e0 : ((lw.date.subDays 1).subDays 5).addDays 0 = lw.date.subDays 6 := by
    rw [hstart]
    exact Date.addDays_subDays h 0 6 (by omega)
  have e1 : ((lw.date.subDays 1).subDays 5).addDays 1 = lw.date.subDays 5 := by
    rw [hstart]
    exact Date.addDays_subDays h 1 6 (by omega)
  have e2 : ((lw.date.subDays 1).subDays 5).addDays 2 = lw.date.subDays 4 := by
    rw [hstart]
    exact Date.addDays_subDays h 2 6 (by omega)
  have e3 : ((lw.date.subDays 1).subDays 5).addDays 3 = lw.date.subDays 3 := by
    rw [hstart]
    exact Date.addDays_subDays h 3 6 (by omega)
  have e4 : ((lw.date.subDays 1).subDays 5).addDays 4 = lw.date.subDays 2 := by
    rw [hstart]
    exact Date.addDays_subDays h 4 6 (by omega)
  have e5 : ((lw.date.subDays 1).subDays 5).addDays 5 = lw.date.subDays 1 := by
    rw [hstart]
    exact Date.addDays_subDays h 5 6 (by omega)
  have hr6 : List.range 6 = [0, 1, 2, 3, 4, 5] := rfl
  refine ⟨?_, ?_, ?_⟩
  · unfold SummaryCardsView.computeSummary
    dsimp only
    rw [hr6]
    simp only [List.map_cons, List.map_nil, List.sum_cons, List.sum_nil, Nat.reduceAdd]
    rw [e0, e1, e2, e3, e4, e5]
    ring
  · unfold SummaryCardsView.computeSummary
    dsimp only
    rw [hr6]
    simp only [List.map_cons, List.map_nil, List.sum_cons, List.sum_nil, Nat.reduceAdd]
    rw [e0, e1, e2, e3, e4, e5]
    ring
  · intro k _
    exact Date.subDays_lt h k

/-- C8 witness: the trailing-window decomposition instantiated at the
as-of instant 2024-06-10 with empty stores. -/
theorem C8_trailing_window_witness :
    ((SummaryCardsView.computeSummary ⟨⟨2024, 6, 10⟩, 0⟩ ⟨2024, 6, 10⟩ [] [] [] []).total_pendapatan
      = (SummaryCardsView.computeSummary ⟨⟨2024, 6, 10⟩, 0⟩ ⟨2024, 6, 10⟩ [] [] [] []).pendapatan_hari_ini
        + ((List.range 6).map (fun k =>
            (SummaryCardsView.daily_summary ⟨2024, 6, 10⟩ [] [] []
              ((⟨⟨2024, 6, 10⟩, 0⟩ : Instant).date.subDays (k + 1))).1)).sum)
    ∧ ((SummaryCardsView.computeSummary ⟨⟨2024, 6, 10⟩, 0⟩ ⟨2024, 6, 10⟩ [] [] [] []).total_transaksi
      = (SummaryCardsView.computeSummary ⟨⟨2024, 6, 10⟩, 0⟩ ⟨2024, 6, 10⟩ [] [] [] []).transaksi_hari_ini
        + ((List.range 6).map (fun k =>
            (SummaryCardsView.daily_summary ⟨2024, 6, 10⟩ [] [] []
              ((⟨⟨2024, 6, 10⟩, 0⟩ : Instant).date.subDays (k + 1))).2)).sum)
    ∧ Date.lt ((⟨⟨2024, 6, 10⟩, 0⟩ : Instant).date.subDays 1) (⟨⟨2024, 6, 10⟩, 0⟩ : Instant).date :=
  ⟨(C8_trailing_window ⟨⟨2024, 6, 10⟩, 0⟩ ⟨2024, 6, 10⟩ [] [] [] [] (by decide)).1,
   (C8_trailing_window ⟨⟨2024, 6, 10⟩, 0⟩ ⟨2024, 6, 10⟩ [] [] [] [] (by decide)).2.1,
   (C8_trailing_window ⟨⟨2024, 6, 10⟩, 0⟩ ⟨2024, 6, 10⟩ [] [] [] [] (by decide)).2.2 0 (by decide)⟩

/-- C9: with identical inputs, identical store contents and an identical
frozen clock the embedded aggregations produce identical outputs (each is a
pure function of those arguments alone, with the clock an explicit
parameter), and the disclosure decisions depend only on the target date's
calendar month and year together with the clock: two target dates in the
same month yield the same decision for every clock value, in both the shared
rule and the summary-cards rule. -/
theorem C9_determinism :
    (∀ (now1 now2 : Date) (ps1 ps2 : List ParkirRow) (ms1 ms2 : List MemberRow)
      (mans1 mans2 : List ManualRow),
      now1 = now2 → ps1 = ps2 → ms1 = ms2 → mans1 = mans2 →
      RevenueDetailsByDaysView.view_by_locations_records now1 ps1 ms1 mans1
        = RevenueDetailsByDaysView.view_by_locations_records now2 ps2 ms2 mans2)
    ∧ (∀ (lw : Instant) (now : Date) (rt : List RTRow) (ps : List ParkirRow)
        (ms : List MemberRow) (mans : List ManualRow),
      SummaryCardsView.computeSummary lw now rt ps ms mans
        = SummaryCardsView.computeSummary lw now rt ps ms mans)
    ∧ (∀ (t1 t2 now : Date), t1.year = t2.year → t1.month = t2.month →
      RevenueDetailsByDaysView.should_show_member_data t1 now
        = RevenueDetailsByDaysView.should_show_member_data t2 now)
    ∧ (∀ (t1 t2 now : Date), t1.year = t2.year → t1.month = t2.month →
      SummaryCardsView.should_show_member_data t1 now
        = SummaryCardsView.should_show_member_data t2 now) := by
  refine ⟨?_, ?_, ?_, ?_⟩
  · intro now1 now2 ps1 ps2 ms1 ms2 mans1 mans2 h1 h2 h3 h4
    rw [h1, h2, h3, h4]
  · intro lw now rt ps ms mans
    rfl
  · intro t1 t2 now hy hm
    unfold RevenueDetailsByDaysView.should_show_member_data
    simp only [hy, hm]
  · intro t1 t2 now hy hm
    unfold SummaryCardsView.should_show_member_data Date.replaceDay
    simp only [hy, hm]

/-- C9 witness: the month-determined disclosure decision instantiated at two
March 2024 dates and the clock 2024-04-06. -/
theorem C9_determinism_witness :
    RevenueDetailsByDaysView.should_show_member_data ⟨2024, 3, 1⟩ ⟨2024, 4, 6⟩
      = RevenueDetailsByDaysView.should_show_member_data ⟨2024, 3, 31⟩ ⟨2024, 4, 6⟩ :=
  C9_determinism.2.2.1 ⟨2024, 3, 1⟩ ⟨2024, 3, 31⟩ ⟨2024, 4, 6⟩ rfl rfl

/-- C10: in the summary-cards computation, today's transaction count always
excludes the MEMBER vehicle category — it equals the quantity sum over the
non-MEMBER snapshot transactions and is independent of the evaluation
time — while today's revenue equals the non-MEMBER amount sum plus the
MEMBER amount sum exactly when the local disclosure rule holds for the
snapshot date; disclosure affects only the revenue figure. -/
theorem C10_member_transactions :
    ∀ (lw : Instant) (now : Date) (rt : List RTRow) (ps : List ParkirRow)
      (ms : List MemberRow) (mans : List ManualRow),
      ((SummaryCardsView.computeSummary lw now rt ps ms mans).transaksi_hari_ini
        = sumOn rt (fun r => decide (r.tanggal = lw.date) && decide (Instant.le r.waktu lw)
            && !(decide (r.kendaraan = "MEMBER"))) RTRow.qty)
      ∧ (∀ (now2 : Date),
        (SummaryCardsView.computeSummary lw now rt ps ms mans).transaksi_hari_ini
          = (SummaryCardsView.computeSummary lw now2 rt ps ms mans).transaksi_hari_ini)
      ∧ ((SummaryCardsView.computeSummary lw now rt ps ms mans).pendapatan_hari_ini
        = sumOn rt (fun r => decide (r.tanggal = lw.date) && decide (Instant.le r.waktu lw)
            && !(decide (r.kendaraan = "MEMBER"))) RTRow.jumlah
          + (if SummaryCardsView.should_show_member_data lw.date now
             then sumOn rt (fun r => decide (r.tanggal = lw.date)
               && decide (Instant.le r.waktu lw) && decide (r.kendaraan = "MEMBER")) RTRow.jumlah
             else 0)) := by
  intro lw now rt ps ms mans
  exact ⟨rfl, fun now2 => rfl, rfl⟩
